import Mathlib

/-!
Shallow embedding of the authenticated Uptime Kuma REST client core
(internal/client: auth.go, client.go, tag.go, monitor.go), together with
theorems settling the specification claims about it.

Conventions of the embedding:
* Go `time.Time` instants are modelled as `Int` (seconds); `time.Now()` is an
  explicit `now` parameter.  `t1.After t2` is `t1 > t2`, `t1.Before t2` is
  `t1 < t2`, matching the strict comparisons of Go's time package.
* The mutable fields `token`/`tokenExpiry` of `AuthClient`, guarded by its
  `sync.RWMutex`, are the state `AuthState`; each operation is a function from
  the state (a consistent snapshot taken under the lock) to the new state plus
  its return value, and records in `exchanged` whether the login exchange
  (`httpClient.Do` on the `/login/access-token` request) was issued.
* Network outcomes are explicit parameters (`LoginOutcome`, `SendOutcome`):
  the transport either fails or yields a status code and a body, and JSON
  decoding of a body is given by its result, since the wire is external input.
-/

namespace UptimeKuma

/-- Snapshot of the mutable fields of `AuthClient` (auth.go): the cached
bearer token and its expiry instant.  A zero-value client has `token = ""`
and `tokenExpiry = 0` (the Go zero `time.Time`, in the past). -/
structure AuthState where
  token : String
  tokenExpiry : Int
deriving DecidableEq, Repr

/-- `TokenResponse` (auth.go): the decoded JSON body of a login response. -/
structure TokenResponse where
  accessToken : String
  tokenType : String
deriving DecidableEq, Repr

/-- Outcome of the login exchange `a.httpClient.Do(req)` in
`refreshToken`: either a transport failure carrying its message, or a
response with a status code and the result of JSON-decoding its body
(`none` when `json.NewDecoder(resp.Body).Decode` fails). -/
inductive LoginOutcome where
  | transportError (msg : String)
  | resp (status : Nat) (decoded : Option TokenResponse)
deriving DecidableEq, Repr

/-- Result of `refreshToken` / `GetToken`: the state of the token store after
the call, the returned `(string, error)` pair, and whether the login exchange
was issued on the network during the call. -/
structure RefreshOut where
  state : AuthState
  result : Except String String
  exchanged : Bool
deriving Repr

instance : DecidableEq (Except String String) := fun a b =>
  match a, b with
  | .ok x, .ok y =>
    if h : x = y then .isTrue (by rw [h]) else .isFalse (by intro c; cases c; exact h rfl)
  | .error x, .error y =>
    if h : x = y then .isTrue (by rw [h]) else .isFalse (by intro c; cases c; exact h rfl)
  | .ok _, .error _ => .isFalse (by intro c; cases c)
  | .error _, .ok _ => .isFalse (by intro c; cases c)

instance : DecidableEq RefreshOut := fun a b =>
  match a, b with
  | ⟨s1, r1, e1⟩, ⟨s2, r2, e2⟩ =>
    if h : s1 = s2 ∧ r1 = r2 ∧ e1 = e2 then
      .isTrue (by obtain ⟨h1, h2, h3⟩ := h; rw [h1, h2, h3])
    else
      .isFalse (by intro c; cases c; exact h ⟨rfl, rfl, rfl⟩)

/-- The margin added to `now` when storing a fresh token (auth.go line 110):
`59 * time.Minute`, in seconds. -/
def refreshMargin : Int := 59 * 60

/-- The part of `refreshToken` (auth.go lines 97-112) that runs once a
status-200 response is in hand: decode the `TokenResponse`; fail on a decode
error; fail on an empty `access_token`; otherwise store the token with expiry
`now + 59 minutes` and return it. -/
def refreshDecode (a : AuthState) (now : Int) (decoded : Option TokenResponse) : RefreshOut :=
  match decoded with
  | none => { state := a, result := .error "failed to decode token response", exchanged := true }
  | some tr =>
    if tr.accessToken = "" then
      { state := a, result := .error "received empty access token", exchanged := true }
    else
      { state := { token := tr.accessToken, tokenExpiry := now + refreshMargin },
        result := .ok tr.accessToken, exchanged := true }

/-- `AuthClient.refreshToken` (auth.go lines 63-113).  Under the write lock:
double-check `a.token != "" && time.Now().Before(a.tokenExpiry)` and return the
cached token if it holds; otherwise issue the login exchange, whose outcome is
the `login` parameter: a transport error or a `(status, decoded body)` pair.
A status other than 200 (`http.StatusOK`) fails with a message embedding the
status code; a status-200 response is handled by `refreshDecode`. -/
def refreshToken (a : AuthState) (now : Int) (login : LoginOutcome) : RefreshOut :=
  if a.token ≠ "" ∧ now < a.tokenExpiry then
    { state := a, result := .ok a.token, exchanged := false }
  else
    match login with
    | .transportError msg =>
      { state := a, result := .error ("failed to execute auth request: " ++ msg),
        exchanged := true }
    | .resp status decoded =>
      if status ≠ 200 then
        { state := a,
          result := .error ("authentication failed with status code: " ++ toString status),
          exchanged := true }
      else
        refreshDecode a now decoded

/-- `AuthClient.GetToken` (auth.go lines 48-60): snapshot token and expiry
under the read lock; if `token == "" || time.Now().After(expiry)`, delegate to
`refreshToken`; otherwise return the cached token with no network call. -/
def getToken (a : AuthState) (now : Int) (login : LoginOutcome) : RefreshOut :=
  if a.token = "" ∨ now > a.tokenExpiry then
    refreshToken a now login
  else
    { state := a, result := .ok a.token, exchanged := false }

/-! ### Auth-injecting transport (auth.go lines 115-162)

HTTP requests are modelled by their header list; `req.Clone` deep-copies the
headers, so mutating the clone's headers leaves the original value untouched,
which the embedding renders by returning both the original (unchanged) request
and the request handed to the underlying transport. -/

/-- An outbound HTTP request, reduced to the part the transport touches: its
headers (Go `http.Header`, here an association list keyed by header name). -/
structure Request where
  headers : List (String × String)
deriving DecidableEq, Repr

/-- `http.Header.Set k v`: replace all existing values for key `k` by the
single value `v`. -/
def headerSet (h : List (String × String)) (k v : String) : List (String × String) :=
  h.filter (fun p => p.1 ≠ k) ++ [(k, v)]

/-- Result of `AuthClient.AddAuthHeader` (auth.go lines 116-124) on a request:
the request after the call (Go mutates it in place), the auth state after the
embedded `GetToken`, and the returned error if any. -/
structure AddAuthOut where
  req : Request
  state : AuthState
  err : Option String
deriving DecidableEq, Repr

/-- `AuthClient.AddAuthHeader` (auth.go lines 116-124): call `GetToken`; on
error return it with the request untouched; on success set
`Authorization: Bearer <token>` on the request. -/
def addAuthHeader (a : AuthState) (now : Int) (login : LoginOutcome) (req : Request) :
    AddAuthOut :=
  let g := getToken a now login
  match g.result with
  | .error e => { req := req, state := g.state, err := some e }
  | .ok tok =>
    { req := { headers := headerSet req.headers "Authorization" ("Bearer " ++ tok) },
      state := g.state, err := none }

/-- Result of `authTransport.RoundTrip` (auth.go lines 144-162).
`originalAfter` is the caller's request object after the call; `delegated` is
the transport actually used paired with the request passed to its `RoundTrip`,
or `none` when no request was sent; `err` is the returned error. -/
structure RoundTripOut (T : Type) where
  originalAfter : Request
  delegated : Option (T × Request)
  state : AuthState
  err : Option String

/-- `authTransport.RoundTrip` (auth.go lines 144-162): clone the request, call
`AddAuthHeader` on the clone (aborting with a wrapped error and sending
nothing if it fails), pick `t.base` or `http.DefaultTransport` when `base` is
nil, and delegate the clone to it.  `base : Option T` is the configured
underlying transport, `defaultTransport : T` stands for
`http.DefaultTransport`. -/
def roundTrip {T : Type} (base : Option T) (defaultTransport : T) (a : AuthState)
    (now : Int) (login : LoginOutcome) (req : Request) : RoundTripOut T :=
  let req2 := req
  let added := addAuthHeader a now login req2
  match added.err with
  | some e =>
    { originalAfter := req, delegated := none, state := added.state,
      err := some ("failed to add auth header: " ++ e) }
  | none =>
    { originalAfter := req, delegated := some (base.getD defaultTransport, added.req),
      state := added.state, err := none }

/-! ### Generic request engine (client.go lines 80-162) and resource bindings

`doRequest` takes `requestBody`/`result` as `interface{}` values; the Go
values that actually flow into those parameters in this repository are
modelled by `GoValue`.  `json.Marshal` is total on them: a `*bytes.Reader`
is a pointer to a struct with no exported fields, which `encoding/json`
serialises as `{}` (written `\x7b\x7d` below); the marshal-error early return
of `doRequest` (client.go lines 87-90) is therefore unreachable on these
values and the embedding keeps marshalling total. -/

/-- `Tag` (tag.go lines 11-15): `id` (JSON `id,omitempty`), `name`, `color`. -/
structure Tag where
  id : Int
  name : String
  color : String
deriving DecidableEq, Repr

/-- A Go `interface{}` value as passed for `requestBody` or `result` in this
repository: the nil interface, a `*bytes.Reader` over marshalled bytes, a
`*Tag` payload, or a `*Tag` result sink. -/
inductive GoValue where
  | goNil
  | bytesReaderOf (data : String)
  | tagVal (t : Tag)
  | tagSinkPtr
deriving DecidableEq, Repr

/-- One hex digit, lower case, as produced by `encoding/json`. -/
def hexDigit (n : Nat) : Char :=
  if n < 10 then Char.ofNat (n + 48) else Char.ofNat (n + 87)

/-- The `\u00XX` escape `encoding/json` emits for a byte value. -/
def uEscape (n : Nat) : String :=
  "\\u00" ++ String.mk [hexDigit (n / 16), hexDigit (n % 16)]

/-- Per-character escaping of `encoding/json`'s string encoder (with its
default HTML escaping of `<`, `>`, `&`, and ` `/` `). -/
def goEscapeChar (c : Char) : String :=
  if c = '\\' then "\\\\"
  else if c = '\"' then "\\\""
  else if c = '\n' then "\\n"
  else if c = '\r' then "\\r"
  else if c = '\t' then "\\t"
  else if c = '<' ∨ c = '>' ∨ c = '&' then uEscape c.toNat
  else if c.toNat < 32 then uEscape c.toNat
  else if c.toNat = 0x2028 ∨ c.toNat = 0x2029 then
    "\\u202" ++ String.mk [hexDigit (c.toNat % 16)]
  else String.mk [c]

/-- `encoding/json`'s quoting of a Go string. -/
def goJSONQuote (s : String) : String :=
  "\"" ++ String.join (s.toList.map goEscapeChar) ++ "\""

/-- `json.Marshal` of a `Tag` value: `id` is omitted when it is the zero
value (its tag is `id,omitempty`), `name` and `color` always appear, in
struct field order. -/
def jsonMarshalTag (t : Tag) : String :=
  "\x7b" ++ (if t.id = 0 then "" else "\"id\":" ++ toString t.id ++ ",") ++
    "\"name\":" ++ goJSONQuote t.name ++ ",\"color\":" ++ goJSONQuote t.color ++ "\x7d"

/-- `json.Marshal` on the `GoValue`s that reach `doRequest`'s `requestBody`.
A `*bytes.Reader` marshals to `\x7b\x7d` because `bytes.Reader` has only
unexported fields; `nil` marshals to `null` (never consulted: `doRequest`
tests for nil first). -/
def jsonMarshal : GoValue → String
  | .goNil => "null"
  | .bytesReaderOf _ => "\x7b\x7d"
  | .tagVal t => jsonMarshalTag t
  | .tagSinkPtr => "\x7b\x7d"

/-- A response as seen by `doRequest` after `c.httpClient.Do` succeeds:
status code, whether `io.ReadAll(resp.Body)` failed, and the bytes it
returned (used in error text even after a partial read). -/
structure HttpResp where
  status : Nat
  readErr : Bool
  body : String
deriving DecidableEq, Repr

/-- Outcome of `c.httpClient.Do(req)` inside `doRequest`: transport failure
with its message, or a response. -/
inductive SendOutcome where
  | transportError (msg : String)
  | resp (r : HttpResp)
deriving DecidableEq, Repr

/-- The request `doRequest` hands to `c.httpClient.Do`: method, path, the
marshalled body if any, and which of the two common headers were set
(client.go lines 100-104: `Accept` always, `Content-Type` only with a
body). -/
structure SentRequest where
  method : String
  path : String
  body : Option String
  contentTypeSet : Bool
  acceptSet : Bool
deriving DecidableEq, Repr

/-- What a `doRequest` call did: the request it sent, the error it returned
(`none` on success), and the sink `json.Unmarshal` was attempted into, when
it was reached. -/
structure DoRequestResult where
  sent : SentRequest
  err : Option String
  unmarshalTarget : Option GoValue
deriving DecidableEq, Repr

/-- The body bytes `doRequest` sends (client.go lines 85-92): nothing for a
nil `requestBody`, else the `json.Marshal` of the value. -/
def requestBodyBytes : GoValue → Option String
  | .goNil => none
  | rb => some (jsonMarshal rb)

/-- The request `doRequest` builds and sends, as a function of its inputs
(client.go lines 85-104). -/
def doRequestSent (method path : String) (requestBody : GoValue) : SentRequest :=
  { method := method, path := path, body := requestBodyBytes requestBody,
    contentTypeSet := (requestBodyBytes requestBody).isSome, acceptSet := true }

/-- `Client.doRequest` (client.go lines 80-137): marshal the body when
non-nil; set headers; send; read the body, recording a read failure without
acting on it yet; fail on a status outside `[200, 300)` with the status code
and raw body in the message; then, only if a result sink was supplied, fail
on a recorded read error, else attempt `json.Unmarshal` into the sink
(`decodeFails` gives that attempt's outcome, body-dependent and external to
the engine). -/
def doRequest (method path : String) (requestBody result : GoValue)
    (send : SendOutcome) (decodeFails : Bool) : DoRequestResult :=
  let sent : SentRequest := doRequestSent method path requestBody
  match send with
  | .transportError msg =>
    { sent := sent, err := some ("failed to execute request: " ++ msg),
      unmarshalTarget := none }
  | .resp r =>
    if r.status < 200 ∨ 300 ≤ r.status then
      { sent := sent,
        err := some ("request failed with status " ++ toString r.status ++ ": " ++ r.body),
        unmarshalTarget := none }
    else
      match result with
      | .goNil => { sent := sent, err := none, unmarshalTarget := none }
      | res =>
        if r.readErr then
          { sent := sent,
            err := some "failed to decode response body due to read error",
            unmarshalTarget := none }
        else if decodeFails then
          { sent := sent,
            err := some ("failed to decode response body (body: " ++ r.body ++ ")"),
            unmarshalTarget := some res }
        else
          { sent := sent, err := none, unmarshalTarget := some res }

/-- `Client.Get` (client.go lines 140-142). -/
def getReq (path : String) (result : GoValue) (send : SendOutcome)
    (decodeFails : Bool) : DoRequestResult :=
  doRequest "GET" path .goNil result send decodeFails

/-- `Client.Post` (client.go lines 145-147). -/
def postReq (path : String) (requestBody result : GoValue) (send : SendOutcome)
    (decodeFails : Bool) : DoRequestResult :=
  doRequest "POST" path requestBody result send decodeFails

/-- `Client.Delete` (client.go lines 160-162): a DELETE with a nil
`requestBody`; its second argument is the *result* parameter of
`doRequest`. -/
def deleteReq (path : String) (result : GoValue) (send : SendOutcome)
    (decodeFails : Bool) : DoRequestResult :=
  doRequest "DELETE" path .goNil result send decodeFails

/-- `Client.CreateTag` (tag.go lines 37-48): marshal the tag, then call
`Post("/tags", bytes.NewReader(data), &result)` — the reader lands in
`doRequest`'s `requestBody` parameter and is marshalled a second time. -/
def createTag (t : Tag) (send : SendOutcome) (decodeFails : Bool) : DoRequestResult :=
  postReq "/tags" (.bytesReaderOf (jsonMarshalTag t)) .tagSinkPtr send decodeFails

/-- `Client.GetTag` (tag.go lines 27-34): `Get("/tags/<id>", &result)`. -/
def getTag (id : Int) (send : SendOutcome) (decodeFails : Bool) : DoRequestResult :=
  getReq ("/tags/" ++ toString id) .tagSinkPtr send decodeFails

/-- `json.Marshal` of the anonymous `struct { TagID int \x60json:"tag_id"\x60 }`
of `DeleteMonitorTag` (monitor.go lines 190-194). -/
def tagRefPayload (tagID : Int) : String :=
  "\x7b\"tag_id\":" ++ toString tagID ++ "\x7d"

/-- `Client.DeleteMonitorTag` (monitor.go lines 189-206): marshal the
`{tag_id}` struct, then call `Delete(path, bytes.NewReader(data))` — the
reader lands in `Delete`'s `result` parameter, not in a request body. -/
def deleteMonitorTag (monitorID tagID : Int) (send : SendOutcome)
    (decodeFails : Bool) : DoRequestResult :=
  deleteReq ("/monitors/" ++ toString monitorID ++ "/tag")
    (.bytesReaderOf (tagRefPayload tagID)) send decodeFails

/-! ### Theorems -/

/-- Every branch of `doRequest` reports the same sent request, computed by
`doRequestSent` before the outcome is examined. -/
theorem doRequest_sent_eq (method path : String) (requestBody result : GoValue)
    (send : SendOutcome) (decodeFails : Bool) :
    (doRequest method path requestBody result send decodeFails).sent =
      doRequestSent method path requestBody := by
  cases send with
  | transportError msg => rfl
  | resp r =>
    simp only [doRequest]
    split
    · rfl
    · cases result <;> dsimp only <;>
        (first | rfl | (split <;> (first | rfl | (split <;> rfl))))

/-- Claim C1: `GetToken` returns the cached token with no login exchange and
no token-store write when the cached token is non-empty and `now` has not
passed the cached expiry; otherwise it delegates to `refreshToken` and
returns its result. -/
theorem c1_getToken_cache_or_refresh (a : AuthState) (now : Int) (login : LoginOutcome) :
    (a.token ≠ "" → ¬ now > a.tokenExpiry →
      getToken a now login = { state := a, result := .ok a.token, exchanged := false }) ∧
    (a.token = "" ∨ now > a.tokenExpiry →
      getToken a now login = refreshToken a now login) := by
  constructor
  · intro h1 h2
    rw [getToken, if_neg (not_or.mpr ⟨h1, h2⟩)]
  · intro h
    rw [getToken, if_pos h]

/-- Witness for C1 at concrete inputs: a live cached token is returned as is,
and an empty cache delegates to the refresh path. -/
theorem c1_getToken_cache_or_refresh_witness :
    getToken ⟨"tok", 10⟩ 5 (.transportError "net down") =
      { state := ⟨"tok", 10⟩, result := .ok "tok", exchanged := false } ∧
    getToken ⟨"", 0⟩ 5 (.transportError "net down") =
      refreshToken ⟨"", 0⟩ 5 (.transportError "net down") :=
  ⟨(c1_getToken_cache_or_refresh ⟨"tok", 10⟩ 5 (.transportError "net down")).1
      (by decide) (by decide),
   (c1_getToken_cache_or_refresh ⟨"", 0⟩ 5 (.transportError "net down")).2
      (Or.inl rfl)⟩

/-- Claim C2: after acquiring the write lock, `refreshToken` re-checks the
cache; a non-empty token with a still-future expiry is returned with no
exchange and no store write, and the login exchange is issued exactly when
this re-check fails. -/
theorem c2_refresh_double_checked (a : AuthState) (now : Int) (login : LoginOutcome) :
    (a.token ≠ "" ∧ now < a.tokenExpiry →
      refreshToken a now login = { state := a, result := .ok a.token, exchanged := false }) ∧
    ((refreshToken a now login).exchanged = true ↔ ¬(a.token ≠ "" ∧ now < a.tokenExpiry)) := by
  constructor
  · intro h
    rw [refreshToken.eq_def, if_pos h]
  · constructor
    · intro he hc
      rw [refreshToken.eq_def, if_pos hc] at he
      simp at he
    · intro hc
      rw [refreshToken.eq_def, if_neg hc]
      cases login with
      | transportError msg => rfl
      | resp status decoded =>
        dsimp only
        by_cases hs : status ≠ 200
        · simp [hs]
        · simp only [if_neg hs]
          cases decoded with
          | none => rfl
          | some tr =>
            by_cases he : tr.accessToken = "" <;> simp [refreshDecode, he]

/-- Witness for C2 at concrete inputs: the re-check short-circuits a live
token, and an exchange is issued when the cache is empty. -/
theorem c2_refresh_double_checked_witness :
    refreshToken ⟨"tok", 10⟩ 5 (.resp 200 none) =
      { state := ⟨"tok", 10⟩, result := .ok "tok", exchanged := false } ∧
    (refreshToken ⟨"", 0⟩ 5 (.transportError "net down")).exchanged = true :=
  ⟨(c2_refresh_double_checked ⟨"tok", 10⟩ 5 (.resp 200 none)).1 (by decide),
   (c2_refresh_double_checked ⟨"", 0⟩ 5 (.transportError "net down")).2.mpr (by decide)⟩

/-- Counterexample to claim C3 as stated: status 201 is in the 2xx range, yet
`refreshToken` fails with the authentication-rejected error (the code tests
`resp.StatusCode != http.StatusOK`, i.e. `!= 200`, not the 2xx range). -/
theorem c3_counterexample :
    200 ≤ 201 ∧ 201 < 300 ∧
    (refreshToken ⟨"", 0⟩ 0 (.resp 201 (some ⟨"tok", "bearer"⟩))).result =
      .error ("authentication failed with status code: " ++ toString 201) :=
  ⟨by norm_num, by norm_num, rfl⟩

/-- Claim C3 as amended: replace "2xx range" by "status exactly 200".  When
the double-check fails, a non-200 login response makes `refreshToken` fail
with an error embedding the status code, and a 200 response proceeds to the
decode phase `refreshDecode`. -/
theorem c3_status_exactly_200 (a : AuthState) (now : Int) (status : Nat)
    (decoded : Option TokenResponse)
    (h : ¬(a.token ≠ "" ∧ now < a.tokenExpiry)) :
    (status ≠ 200 →
      refreshToken a now (.resp status decoded) =
        { state := a,
          result := .error ("authentication failed with status code: " ++ toString status),
          exchanged := true }) ∧
    (status = 200 →
      refreshToken a now (.resp status decoded) = refreshDecode a now decoded) := by
  constructor
  · intro hs
    rw [refreshToken.eq_def, if_neg h]
    simp [hs]
  · intro hs
    rw [refreshToken.eq_def, if_neg h]
    simp [hs]

/-- Witness for the amended C3 at concrete inputs: a 500 login response is
rejected with its status code in the message, and a 200 response reaches the
decode phase. -/
theorem c3_status_exactly_200_witness :
    refreshToken ⟨"", 0⟩ 0 (.resp 500 none) =
      { state := ⟨"", 0⟩,
        result := .error ("authentication failed with status code: " ++ toString 500),
        exchanged := true } ∧
    refreshToken ⟨"", 0⟩ 0 (.resp 200 (some ⟨"t", "bearer"⟩)) =
      refreshDecode ⟨"", 0⟩ 0 (some ⟨"t", "bearer"⟩) :=
  ⟨(c3_status_exactly_200 ⟨"", 0⟩ 0 500 none (by decide)).1 (by decide),
   (c3_status_exactly_200 ⟨"", 0⟩ 0 200 (some ⟨"t", "bearer"⟩) (by decide)).2 rfl⟩

/-- Counterexample to claim C4 as stated: on a 2xx response whose body read
failed, `doRequest` does NOT let the call proceed when a result sink was
supplied — it fails with the read error (client.go lines 127-130). -/
theorem c4_counterexample :
    200 ≤ 200 ∧ 200 < 300 ∧
    (doRequest "GET" "/monitors" .goNil .tagSinkPtr (.resp ⟨200, true, ""⟩) false).err =
      some "failed to decode response body due to read error" :=
  ⟨by norm_num, by norm_num, rfl⟩

/-- Claim C4 as amended: the status-code classification does take precedence
— a non-2xx status yields the status-code error even when the read failed —
and a 2xx status with a read failure proceeds only when no result sink was
supplied; with a result sink, the recorded read error fails the call at the
decode step. -/
theorem c4_read_error_vs_status (method path : String) (requestBody result : GoValue)
    (r : HttpResp) (decodeFails : Bool) :
    (r.status < 200 ∨ 300 ≤ r.status →
      (doRequest method path requestBody result (.resp r) decodeFails).err =
        some ("request failed with status " ++ toString r.status ++ ": " ++ r.body)) ∧
    (200 ≤ r.status → r.status < 300 → result = .goNil →
      (doRequest method path requestBody result (.resp r) decodeFails).err = none) ∧
    (200 ≤ r.status → r.status < 300 → result ≠ .goNil → r.readErr = true →
      (doRequest method path requestBody result (.resp r) decodeFails).err =
        some "failed to decode response body due to read error") := by
  refine ⟨?_, ?_, ?_⟩
  · intro h
    simp only [doRequest]
    rw [if_pos h]
  · intro h1 h2 hres
    subst hres
    simp only [doRequest]
    rw [if_neg (by omega)]
  · intro h1 h2 hres hread
    simp only [doRequest]
    rw [if_neg (by omega)]
    cases result with
    | goNil => exact absurd rfl hres
    | bytesReaderOf data => simp [hread]
    | tagVal t => simp [hread]
    | tagSinkPtr => simp [hread]

/-- Witness for the amended C4 at concrete inputs: a 404 with a failed read
yields the status error, a 2xx with a failed read and no sink succeeds, and a
2xx with a failed read and a sink fails with the read error. -/
theorem c4_read_error_vs_status_witness :
    (doRequest "GET" "/tags" .goNil .goNil (.resp ⟨404, true, "nf"⟩) false).err =
      some ("request failed with status " ++ toString 404 ++ ": " ++ "nf") ∧
    (doRequest "GET" "/tags" .goNil .goNil (.resp ⟨200, true, ""⟩) false).err = none ∧
    (doRequest "GET" "/tags" .goNil .tagSinkPtr (.resp ⟨204, true, ""⟩) false).err =
      some "failed to decode response body due to read error" :=
  ⟨(c4_read_error_vs_status "GET" "/tags" .goNil .goNil ⟨404, true, "nf"⟩ false).1
      (by norm_num),
   (c4_read_error_vs_status "GET" "/tags" .goNil .goNil ⟨200, true, ""⟩ false).2.1
      (by norm_num) (by norm_num) rfl,
   (c4_read_error_vs_status "GET" "/tags" .goNil .tagSinkPtr ⟨204, true, ""⟩ false).2.2
      (by norm_num) (by norm_num) (by decide) rfl⟩

/-- Claim C5, the code-level divergence: `CreateTag` marshals the tag and
passes the resulting `*bytes.Reader` to `Post`, where `doRequest` marshals it
again, so the POST /tags body on the wire is the empty JSON object
`\x7b\x7d` and not the tag's JSON.  Evaluated at the repository's own test
payload (tag_test.go lines 159-169, `{name: "testing", color: "#FF0000"}`),
whose mock server decodes the request body and whose assertions on the echoed
name/color therefore fail. -/
theorem c5_create_body_is_empty_object (send : SendOutcome) (decodeFails : Bool) :
    (createTag ⟨0, "testing", "#FF0000"⟩ send decodeFails).sent.body = some "\x7b\x7d" ∧
    jsonMarshalTag ⟨0, "testing", "#FF0000"⟩ =
      "\x7b\"name\":\"testing\",\"color\":\"#FF0000\"\x7d" ∧
    jsonMarshalTag ⟨0, "testing", "#FF0000"⟩ ≠ "\x7b\x7d" := by
  refine ⟨?_, by decide, by decide⟩
  rw [createTag, postReq, doRequest_sent_eq]
  rfl

/-- Claim C6: a successful login exchange (status 200, decodable body) with
an empty `access_token` fails with the protocol error and stores nothing;
with a non-empty `access_token`, the store is updated to exactly
`{token = access_token, expiry = now + 59 minutes}` and that token is
returned.  `refreshMargin = 59 * 60` seconds ties the margin to the claim's
59 minutes. -/
theorem c6_refresh_success_store (a : AuthState) (now : Int) (tr : TokenResponse)
    (h : ¬(a.token ≠ "" ∧ now < a.tokenExpiry)) :
    refreshMargin = 59 * 60 ∧
    (tr.accessToken = "" →
      refreshToken a now (.resp 200 (some tr)) =
        { state := a, result := .error "received empty access token", exchanged := true }) ∧
    (tr.accessToken ≠ "" →
      refreshToken a now (.resp 200 (some tr)) =
        { state := { token := tr.accessToken, tokenExpiry := now + refreshMargin },
          result := .ok tr.accessToken, exchanged := true }) := by
  refine ⟨rfl, ?_, ?_⟩
  · intro he
    rw [refreshToken.eq_def, if_neg h]
    simp [refreshDecode, he]
  · intro he
    rw [refreshToken.eq_def, if_neg h]
    simp [refreshDecode, he]

/-- Witness for C6 at concrete inputs: an empty token is rejected without a
store write, and a fresh token is stored with expiry `now + refreshMargin`. -/
theorem c6_refresh_success_store_witness :
    refreshMargin = 59 * 60 ∧
    refreshToken ⟨"", 0⟩ 7 (.resp 200 (some ⟨"", "bearer"⟩)) =
      { state := ⟨"", 0⟩, result := .error "received empty access token",
        exchanged := true } ∧
    refreshToken ⟨"", 0⟩ 7 (.resp 200 (some ⟨"fresh", "bearer"⟩)) =
      { state := ⟨"fresh", 7 + refreshMargin⟩, result := .ok "fresh", exchanged := true } :=
  ⟨(c6_refresh_success_store ⟨"", 0⟩ 7 ⟨"", "bearer"⟩ (by decide)).1,
   (c6_refresh_success_store ⟨"", 0⟩ 7 ⟨"", "bearer"⟩ (by decide)).2.1 rfl,
   (c6_refresh_success_store ⟨"", 0⟩ 7 ⟨"fresh", "bearer"⟩ (by decide)).2.2 (by decide)⟩

/-- Claim C7: whenever `refreshToken` returns an error — transport failure,
non-success status, undecodable body, or empty token — the token store is
exactly as before the call, and any subsequent `GetToken` behaves exactly as
if the failed call had never happened (the failure is not cached). -/
theorem c7_failed_refresh_preserves_store (a : AuthState) (now : Int)
    (login : LoginOutcome) (e : String)
    (h : (refreshToken a now login).result = .error e) :
    (refreshToken a now login).state = a ∧
    ∀ now2 login2,
      getToken (refreshToken a now login).state now2 login2 = getToken a now2 login2 := by
  have hstate : (refreshToken a now login).state = a := by
    rw [refreshToken.eq_def] at h ⊢
    by_cases hc : a.token ≠ "" ∧ now < a.tokenExpiry
    · rw [if_pos hc]
    · rw [if_neg hc] at h ⊢
      cases login with
      | transportError msg => rfl
      | resp status decoded =>
        dsimp only at h ⊢
        by_cases hs : status ≠ 200
        · rw [if_pos hs]
        · rw [if_neg hs] at h ⊢
          cases decoded with
          | none => rfl
          | some tr =>
            by_cases he : tr.accessToken = ""
            · simp [refreshDecode, he]
            · simp [refreshDecode, he] at h
  exact ⟨hstate, fun now2 login2 => by rw [hstate]⟩

/-- Witness for C7 at a concrete input: after a transport failure on the
exchange, the store still holds the (empty) pre-call state and the next
`GetToken` call runs as before. -/
theorem c7_failed_refresh_preserves_store_witness :
    (refreshToken ⟨"", 0⟩ 0 (.transportError "conn refused")).state = ⟨"", 0⟩ ∧
    getToken (refreshToken ⟨"", 0⟩ 0 (.transportError "conn refused")).state 5
        (.resp 200 (some ⟨"t", "bearer"⟩)) =
      getToken ⟨"", 0⟩ 5 (.resp 200 (some ⟨"t", "bearer"⟩)) :=
  ⟨(c7_failed_refresh_preserves_store ⟨"", 0⟩ 0 (.transportError "conn refused")
      ("failed to execute auth request: " ++ "conn refused") rfl).1,
   (c7_failed_refresh_preserves_store ⟨"", 0⟩ 0 (.transportError "conn refused")
      ("failed to execute auth request: " ++ "conn refused") rfl).2 5
      (.resp 200 (some ⟨"t", "bearer"⟩))⟩

/-- Claim C8: `authTransport.RoundTrip` leaves the caller's request exactly
as it was, and when `GetToken` succeeds it delegates a clone carrying
`Authorization: Bearer <token>` to the configured underlying transport, or to
the platform default when none is configured (`base.getD defaultTransport`). -/
theorem c8_roundtrip_clones_request {T : Type} (base : Option T) (defaultTransport : T)
    (a : AuthState) (now : Int) (login : LoginOutcome) (req : Request) :
    (roundTrip base defaultTransport a now login req).originalAfter = req ∧
    ∀ tok, (getToken a now login).result = .ok tok →
      (roundTrip base defaultTransport a now login req).delegated =
        some (base.getD defaultTransport,
          { headers := headerSet req.headers "Authorization" ("Bearer " ++ tok) }) := by
  constructor
  · rw [roundTrip]
    cases hg : (addAuthHeader a now login req).err <;> rfl
  · intro tok h
    rw [roundTrip]
    have : addAuthHeader a now login req =
        { req := { headers := headerSet req.headers "Authorization" ("Bearer " ++ tok) },
          state := (getToken a now login).state, err := none } := by
      rw [addAuthHeader]
      simp [h]
    rw [this]

/-- Witness for C8 at concrete inputs: with no configured base transport
(`none`, default `0`), a live cached token is injected on the clone while the
original request keeps its single header. -/
theorem c8_roundtrip_clones_request_witness :
    (roundTrip (T := Nat) none 0 ⟨"tok", 10⟩ 5 (.transportError "x")
        ⟨[("Accept", "application/json")]⟩).originalAfter =
      ⟨[("Accept", "application/json")]⟩ ∧
    (roundTrip (T := Nat) none 0 ⟨"tok", 10⟩ 5 (.transportError "x")
        ⟨[("Accept", "application/json")]⟩).delegated =
      some (0, ⟨headerSet [("Accept", "application/json")] "Authorization"
        ("Bearer " ++ "tok")⟩) :=
  ⟨(c8_roundtrip_clones_request none 0 ⟨"tok", 10⟩ 5 (.transportError "x")
      ⟨[("Accept", "application/json")]⟩).1,
   (c8_roundtrip_clones_request none 0 ⟨"tok", 10⟩ 5 (.transportError "x")
      ⟨[("Accept", "application/json")]⟩).2 "tok" rfl⟩

/-- Claim C9: when `GetToken` fails, `RoundTrip` returns the wrapped
authentication error and delegates nothing — the underlying transport is
never invoked. -/
theorem c9_roundtrip_aborts_on_auth_failure {T : Type} (base : Option T)
    (defaultTransport : T) (a : AuthState) (now : Int) (login : LoginOutcome)
    (req : Request) (e : String)
    (h : (getToken a now login).result = .error e) :
    (roundTrip base defaultTransport a now login req).err =
      some ("failed to add auth header: " ++ e) ∧
    (roundTrip base defaultTransport a now login req).delegated = none := by
  have : addAuthHeader a now login req =
      { req := req, state := (getToken a now login).state, err := some e } := by
    rw [addAuthHeader]
    simp [h]
  rw [roundTrip, this]
  exact ⟨rfl, rfl⟩

/-- Witness for C9 at a concrete input: an empty cache plus a transport
failure on the exchange makes `RoundTrip` fail without delegating. -/
theorem c9_roundtrip_aborts_on_auth_failure_witness :
    (roundTrip (T := Nat) none 0 ⟨"", 0⟩ 5 (.transportError "conn refused")
        ⟨[]⟩).err =
      some ("failed to add auth header: " ++
        ("failed to execute auth request: " ++ "conn refused")) ∧
    (roundTrip (T := Nat) none 0 ⟨"", 0⟩ 5 (.transportError "conn refused")
        ⟨[]⟩).delegated = none :=
  c9_roundtrip_aborts_on_auth_failure none 0 ⟨"", 0⟩ 5 (.transportError "conn refused")
    ⟨[]⟩ ("failed to execute auth request: " ++ "conn refused") rfl

/-- Claim C10: `DeleteMonitorTag` issues a DELETE to `/monitors/<id>/tag`
with no request body and no Content-Type header — the marshalled `{tag_id}`
payload sits in `Delete`'s result parameter — and on a 2xx response whose
body was read, the engine attempts `json.Unmarshal` into that
`*bytes.Reader` value. -/
theorem c10_deleteMonitorTag_body_in_result_sink (monitorID tagID : Int)
    (send : SendOutcome) (decodeFails : Bool) :
    (deleteMonitorTag monitorID tagID send decodeFails).sent =
      { method := "DELETE", path := "/monitors/" ++ toString monitorID ++ "/tag",
        body := none, contentTypeSet := false, acceptSet := true } ∧
    ∀ r : HttpResp, send = .resp r → 200 ≤ r.status → r.status < 300 →
      r.readErr = false →
      (deleteMonitorTag monitorID tagID send decodeFails).unmarshalTarget =
        some (.bytesReaderOf (tagRefPayload tagID)) := by
  constructor
  · rw [deleteMonitorTag, deleteReq, doRequest_sent_eq]
    rfl
  · intro r hsend h1 h2 hread
    subst hsend
    rw [deleteMonitorTag, deleteReq]
    simp only [doRequest]
    rw [if_neg (by omega)]
    simp [hread]
    cases decodeFails <;> simp

/-- Witness for C10 at concrete inputs: monitor 7, tag 3, a 200 response with
a readable body. -/
theorem c10_deleteMonitorTag_body_in_result_sink_witness :
    (deleteMonitorTag 7 3 (.resp ⟨200, false, "\x7b\x7d"⟩) false).sent =
      { method := "DELETE", path := "/monitors/" ++ toString (7 : Int) ++ "/tag",
        body := none, contentTypeSet := false, acceptSet := true } ∧
    (deleteMonitorTag 7 3 (.resp ⟨200, false, "\x7b\x7d"⟩) false).unmarshalTarget =
      some (.bytesReaderOf (tagRefPayload 3)) :=
  ⟨(c10_deleteMonitorTag_body_in_result_sink 7 3 (.resp ⟨200, false, "\x7b\x7d"⟩)
      false).1,
   (c10_deleteMonitorTag_body_in_result_sink 7 3 (.resp ⟨200, false, "\x7b\x7d"⟩)
      false).2 ⟨200, false, "\x7b\x7d"⟩ rfl (by norm_num) (by norm_num) rfl⟩

end UptimeKuma
